import Mathlib

/-!
# Chat handler of the store-state layer

A shallow embedding of `core/block/editor/chatobject/chathandler.go`: the hooks
`BeforeCreate`, `BeforeModify`, `BeforeDelete` and the key-path modifier wrapper
`UpgradeKeyModifier` of `ChatHandler`, followed by the relations mapper of the account
object and `Dashboard.updateObjects`. The definitions of all three come first, the theorems
after them.

Go pointers that the hooks mutate in place (the payload value, the subscription) are
passed in and returned explicitly. A `context.Context` and the fastjson arena carry no
data the hooks read, so they are dropped.
-/

set_option autoImplicit false
set_option linter.dupNamespace false

namespace chatobject

/-! ## Documents -/

mutual
/-- Modelled from the spec: a JSON-like structured value (§3 Document): a scalar, a
sequence, or a nested mapping. It stands for the fastjson value type, an external library. -/
inductive JVal where
  | null
  | bool (b : Bool)
  | num (n : Int)
  | str (s : String)
  | arr (items : JArr)
  | obj (fields : Doc)
/-- Sequence of values. -/
inductive JArr where
  | nil
  | cons (head : JVal) (tail : JArr)
/-- Modelled from the spec: a Document (§3), a mapping of string keys to values, kept in
insertion order as a fastjson object keeps it. -/
inductive Doc where
  | nil
  | cons (key : String) (value : JVal) (tail : Doc)
end

deriving instance DecidableEq for JVal, JArr, Doc
deriving instance Repr for JVal, JArr, Doc

/-- Lookup of a key in an object: the value of the first entry with that key. -/
def Doc.Get : Doc → String → Option JVal
  | .nil, _ => none
  | .cons k v tl, key => if k = key then some v else tl.Get key

/-- Assignment of a key in an object: the first entry with that key is replaced, and a new
entry is appended when there is none. -/
def Doc.Set : Doc → String → JVal → Doc
  | .nil, key, val => .cons key val .nil
  | .cons k v tl, key, val => if k = key then .cons k val tl else .cons k v (tl.Set key val)

/-- String read of a key: the empty string when the key is absent or does not hold a string
(`string(v.GetStringBytes(key))`). -/
def Doc.GetString (d : Doc) (key : String) : String :=
  match d.Get key with
  | some (.str s) => s
  | _ => ""

/-- Integer read of a key: zero when the key is absent or does not hold a number. -/
def Doc.GetInt (d : Doc) (key : String) : Int :=
  match d.Get key with
  | some (.num n) => n
  | _ => 0

/-- String read of a key as bytes (`v.GetStringBytes(key)`): `none`, for nil, when the key is
absent or does not hold a string. -/
def Doc.GetStringBytes (d : Doc) (key : String) : Option String :=
  match d.Get key with
  | some (.str s) => some s
  | _ => none

/-- 64-bit integer read of a key (`v.GetInt64(key)`): zero when the key is absent, does not
hold a number, or holds a number outside the range of `int64`. -/
def Doc.GetInt64 (d : Doc) (key : String) : Int :=
  match d.Get key with
  | some (.num n) =>
    if -9223372036854775808 ≤ n ∧ n ≤ 9223372036854775807 then n else 0
  | _ => 0

/-- Boolean read of a key (`v.GetBool(key)`): false when the key is absent or does not hold a
boolean. -/
def Doc.GetBool (d : Doc) (key : String) : Bool :=
  match d.Get key with
  | some (.bool b) => b
  | _ => false

/-! ## Errors -/

/-- Go error values, as far as the handler builds and inspects them: package-level error
variables, fresh errors (`errors.New`, and `fmt.Errorf` without `%w`), wrapping with
`fmt.Errorf("...: %w", err)` and `errors.Join` of two errors. -/
inductive GoError where
  | sentinel (name : String)
  | errorsNew (msg : String)
  | wrap (msg : String) (inner : GoError)
  | join (first second : GoError)
  deriving DecidableEq, Repr

/-- The validation error variable `storestate.ErrValidation`. -/
def ErrValidation : GoError := .sentinel "storestate.ErrValidation"

/-- The error variable with which the document store answers a lookup by an id that has no
document (`anystore.ErrDocNotFound`). -/
def ErrDocNotFound : GoError := .sentinel "anystore.ErrDocNotFound"

/-- Go's `errors.Is(err, target)` for a target that is an error variable: the error is the
target, or something it wraps or joins is. -/
def errorsIs : GoError → GoError → Bool
  | .sentinel n, target => decide (GoError.sentinel n = target)
  | .errorsNew _, _ => false
  | .wrap _ inner, target => errorsIs inner target
  | .join a b, target => errorsIs a target || errorsIs b target

/-! ## Chat messages -/

/-- Modelled from the spec: the name of the chat collection (§3 Collection). The constant is
declared outside the handler file; its value plays no role. -/
def collectionName : String := "chats"
/-- Modelled from the spec: the key under which a message document records its creator
(§4.3). The key constants are declared outside the handler file; only their being distinct
plays a role. -/
def creatorKey : String := "creator"
/-- Modelled from the spec: the key under which a message document records its creation
time. -/
def createdAtKey : String := "createdAt"
/-- Modelled from the spec: the key of the reactions of a message document, the path that
aggregates collaborative reactions (§4.3). -/
def reactionsKey : String := "reactions"
/-- Modelled from the spec: the key of the content of a message document, the path that
holds primary content (§4.3). -/
def contentKey : String := "content"

/-- The message model handed to the subscription (`model.ChatMessage`): the fields the
package test lists, and the creation time. Content, attachments and reactions are kept as
the document sub-values they are converted from. -/
structure ChatMessage where
  Id : String
  OrderId : String
  Creator : String
  CreatedAt : Int
  ReplyToMessageId : String
  Message : Option JVal
  Attachments : Option JVal
  Reactions : Option JVal
  deriving DecidableEq, Repr

/-- Modelled from the spec: the wrapper around a message document that the handler uses to
read and stamp fields (`newMessageWrapper`, declared outside the handler file). The value is
`none` for a Go nil pointer, on which every read gives the zero value and every write does
nothing. -/
structure messageWrapper where
  val : Option Doc
  deriving DecidableEq, Repr

/-- Modelled from the spec: the wrapper around a value (`newMessageWrapper`). -/
def newMessageWrapper (val : Option Doc) : messageWrapper := ⟨val⟩

/-- Modelled from the spec: the creator recorded in the wrapped document (`getCreator`), the
empty string when there is none. -/
def messageWrapper.getCreator (m : messageWrapper) : String :=
  match m.val with
  | some d => d.GetString creatorKey
  | none => ""

/-- Modelled from the spec: stamps the creator onto the wrapped document (`setCreator`,
§4.3). -/
def messageWrapper.setCreator (m : messageWrapper) (v : String) : messageWrapper :=
  ⟨m.val.map (fun d => d.Set creatorKey (.str v))⟩

/-- Modelled from the spec: stamps the creation time onto the wrapped document
(`setCreatedAt`). -/
def messageWrapper.setCreatedAt (m : messageWrapper) (v : Int) : messageWrapper :=
  ⟨m.val.map (fun d => d.Set createdAtKey (.num v))⟩

/-- Modelled from the spec: the materialized model of the wrapped document (`toModel`, §3
Subscription state). The order id is left empty, as the package test expects of a message
read back from the store; the handler assigns it where it has one (`BeforeCreate`). -/
def messageWrapper.toModel (m : messageWrapper) : ChatMessage :=
  match m.val with
  | some d =>
    { Id := d.GetString "id"
      OrderId := ""
      Creator := d.GetString creatorKey
      CreatedAt := d.GetInt createdAtKey
      ReplyToMessageId := d.GetString "replyToMessageId"
      Message := d.Get contentKey
      Attachments := d.Get "attachments"
      Reactions := d.Get reactionsKey }
  | none =>
    { Id := "", OrderId := "", Creator := "", CreatedAt := 0, ReplyToMessageId := "",
      Message := none, Attachments := none, Reactions := none }

/-! ## Subscription -/

/-- A notification received by the subscription. -/
inductive SubEvent where
  | add (message : ChatMessage)
  | delete (messageId : String)
  | updateFull (message : ChatMessage)
  | updateReactions (message : ChatMessage)
  deriving DecidableEq, Repr

/-- Modelled from the spec: the Subscription (§4.4) with its operations `add`, partial
update, `updateFull` and `delete`; its type is declared outside the handler file. It is
modelled by the notifications it has received, oldest first. -/
structure subscription where
  events : List SubEvent
  deriving DecidableEq, Repr

/-- Notification of an added message. -/
def subscription.add (s : subscription) (message : ChatMessage) : subscription :=
  ⟨s.events ++ [.add message]⟩
/-- Notification of a deleted message. -/
def subscription.delete (s : subscription) (messageId : String) : subscription :=
  ⟨s.events ++ [.delete messageId]⟩
/-- Notification of a full update of a message. -/
def subscription.updateFull (s : subscription) (message : ChatMessage) : subscription :=
  ⟨s.events ++ [.updateFull message]⟩
/-- Notification of a reactions-only update of a message. -/
def subscription.updateReactions (s : subscription) (message : ChatMessage) : subscription :=
  ⟨s.events ++ [.updateReactions message]⟩

/-! ## Store state and changes -/

/-- Modelled from the spec: a Collection (§3, §6) of documents by id, with the lookup
`findById(id) -> Document|NotFound`. It stands for the collection type of the document
store, an external library. -/
structure Collection where
  docs : List (String × Doc)
  deriving DecidableEq, Repr

/-- Lookup of a document by id: the document, or the not-found error of the store. -/
def Collection.FindId (c : Collection) (id : String) : Except GoError Doc :=
  match c.docs.lookup id with
  | some d => .ok d
  | none => .error ErrDocNotFound

/-- The store state a change is applied to: `Collection(name)` opens a collection or fails
(`storestate.StoreState`, declared outside the handler file). -/
structure StoreState where
  Collection : String → Except GoError Collection

/-- A key-path modification of a document (`pb.KeyModify`); the handler reads its key path
only. -/
structure KeyModify where
  KeyPath : List String
  deriving DecidableEq, Repr

/-- Content of a store change (`pb.StoreChangeContent`): a create, a modify or a delete of
one document. -/
inductive StoreChangeContent where
  | create (documentId : String) (value : Doc)
  | modify (documentId : String) (keys : List KeyModify)
  | delete (documentId : String)
  deriving DecidableEq, Repr

/-- Generated getter chain `GetDelete().GetDocumentId()`: the id of the deleted document, and
the empty string when the change is not a delete. -/
def StoreChangeContent.GetDeleteDocumentId : StoreChangeContent → String
  | .delete documentId => documentId
  | _ => ""

/-- One change of a change set with what the set stamps on it (`storestate.Change`). -/
structure Change where
  Id : String
  Order : String
  Change : StoreChangeContent
  Creator : String
  Timestamp : Int
  deriving DecidableEq, Repr

/-- What a hook receives (`storestate.ChangeOp`): the change, the store state and, for a
create, the payload value. -/
structure ChangeOp where
  Change : Change
  State : StoreState
  Value : Doc

/-- How the store treats a modify whose target is missing. The handler file names
`ModifyModeUpsert`; the other mode is the spec's `MergeOnly`. -/
inductive ModifyMode where
  | ModifyModeMergeOnly
  | ModifyModeUpsert
  deriving DecidableEq, Repr

/-- How the store removes a document. The handler file names `DeleteModeDelete`; the other
mode is the spec's `Tombstone`. -/
inductive DeleteMode where
  | DeleteModeDelete
  | DeleteModeTombstone
  deriving DecidableEq, Repr

/-- Result of a modifier: the resulting value (`none` for nil), whether the document was
modified, and the error if any. -/
structure ModifyResult where
  result : Option Doc
  modified : Bool
  err : Option GoError
  deriving DecidableEq, Repr

/-- A document modifier (`query.Modifier`). `Modify` is what a call `mod.Modify(a, v)`
returns. A modifier may mutate the value it is given in place: `inPlace v` is the content of
that value after the call, which is `v` itself for a modifier that leaves its input alone. -/
structure Modifier where
  Modify : Doc → ModifyResult
  inPlace : Doc → Doc

/-- A modifier applied to a document stands for the result of its `Modify`. -/
instance : CoeFun Modifier (fun _ => Doc → ModifyResult) := ⟨Modifier.Modify⟩

/-! ## The handler -/

/-- The chat handler: the chat id and the subscription it notifies. -/
structure ChatHandler where
  chatId : String
  subscription : subscription

/-- Formatting of a key path by `%s`: the elements between brackets, separated by blanks. -/
def formatKeyPath (keyPath : List String) : String :=
  "[" ++ " ".intercalate keyPath ++ "]"

/-- Hook `CollectionName`. -/
def ChatHandler.CollectionName (_d : ChatHandler) : String := collectionName

/-- Hook `BeforeCreate`: stamps creation time and creator onto the payload and notifies the
subscription of the added message, whose model gets the order of the change. Returns the
payload after the hook, the error, and the subscription after the hook. -/
def ChatHandler.BeforeCreate (d : ChatHandler) (ch : ChangeOp) :
    Doc × Option GoError × chatobject.subscription :=
  let msg := newMessageWrapper (some ch.Value)
  let msg := msg.setCreatedAt ch.Change.Timestamp
  let msg := msg.setCreator ch.Change.Creator
  let model := msg.toModel
  let model := { model with OrderId := ch.Change.Order }
  (msg.val.getD ch.Value, none, d.subscription.add model)

/-- Hook `BeforeModify`: the modify mode and the error. -/
def ChatHandler.BeforeModify (_d : ChatHandler) (_ch : ChangeOp) :
    ModifyMode × Option GoError :=
  (.ModifyModeUpsert, none)

/-- Hook `BeforeDelete`: the delete mode, the error, and the subscription after the hook. -/
def ChatHandler.BeforeDelete (d : ChatHandler) (ch : ChangeOp) :
    DeleteMode × Option GoError × chatobject.subscription :=
  match ch.State.Collection collectionName with
  | .error err => (.DeleteModeDelete, some (.wrap "get collection" err), d.subscription)
  | .ok coll =>
    let messageId := ch.Change.Change.GetDeleteDocumentId
    match coll.FindId messageId with
    | .error err => (.DeleteModeDelete, some (.wrap "get message" err), d.subscription)
    | .ok doc =>
      let message := newMessageWrapper (some doc)
      if message.getCreator ≠ ch.Change.Creator then
        (.DeleteModeDelete, some (.errorsNew "can't delete not own message"), d.subscription)
      else
        (.DeleteModeDelete, none, d.subscription.delete messageId)

/-- The modifier returned by `UpgradeKeyModifier`, applied to a document: its result and the
subscription after the call. Where the code returns the pointer `v` after the raw modifier
ran, the result is the content the raw modifier left in it, `mod.inPlace v`. -/
def ChatHandler.UpgradeKeyModifier (d : ChatHandler) (ch : ChangeOp) (key : KeyModify)
    (mod : Modifier) (v : Doc) : ModifyResult × chatobject.subscription :=
  match key.KeyPath with
  | [] => (⟨none, false, some (.errorsNew "no key path")⟩, d.subscription)
  | path :: _ =>
    let r := mod v
    match r.err with
    | some err => (⟨none, false, some err⟩, d.subscription)
    | none =>
      if r.modified then
        let msg := newMessageWrapper r.result
        let model := msg.toModel
        if path = reactionsKey then
          (⟨r.result, r.modified, none⟩, d.subscription.updateReactions model)
        else if path = contentKey then
          let creator := model.Creator
          if creator ≠ ch.Change.Creator then
            (⟨some (mod.inPlace v), false,
              some (.join ErrValidation (.errorsNew "can't modify not own message"))⟩,
              d.subscription)
          else
            (⟨r.result, r.modified, none⟩, d.subscription.updateFull model)
        else
          (⟨none, false,
            some (.errorsNew ("invalid key path " ++ formatKeyPath key.KeyPath))⟩,
            d.subscription)
      else
        (⟨r.result, r.modified, none⟩, d.subscription)

/-- Modelled from the spec: what the store makes of the mode returned by `beforeModify`
(§4.3) when it looks up the target of a modify: `Upsert` creates the document if absent,
`MergeOnly` fails if absent. The modify step of the store (package `storestate`) is absent
from the sources. The result is the document the key modifiers are then applied to. -/
def modifyTarget (mode : ModifyMode) (coll : Collection) (id : String) : Except GoError Doc :=
  match coll.FindId id with
  | .ok doc => .ok doc
  | .error err =>
    match mode with
    | .ModifyModeUpsert => .ok (.cons "id" (.str id) .nil)
    | .ModifyModeMergeOnly => .error err

/-! ## Sample data -/

/-- A stored message with id `m1`, written by `u1`. -/
def sampleMessage : Doc :=
  .cons "id" (.str "m1") (.cons creatorKey (.str "u1")
    (.cons contentKey (.obj (.cons "text" (.str "hi") .nil)) .nil))

/-- A chat collection that holds `sampleMessage` only. -/
def sampleCollection : Collection := ⟨[("m1", sampleMessage)]⟩

/-- A store state whose chat collection is `sampleCollection`. -/
def sampleState : StoreState := ⟨fun _ => .ok sampleCollection⟩

/-- A handler whose subscription has received nothing yet. -/
def sampleHandler : ChatHandler := ⟨"chat1", ⟨[]⟩⟩

/-- A delete of the message `messageId` submitted by `creator`. -/
def sampleDelete (creator messageId : String) : ChangeOp :=
  ⟨⟨"changeSet1", "order1", .delete messageId, creator, 5⟩, sampleState, .nil⟩

/-- A modify of the message `m1` along `keyPath` submitted by `creator`. -/
def sampleModify (creator : String) (keyPath : List String) : ChangeOp :=
  ⟨⟨"changeSet2", "order2", .modify "m1" [⟨keyPath⟩], creator, 6⟩, sampleState, .nil⟩

/-- A raw modifier that replaces the content of the document by `text`, in place: it returns
the value it was given, modified. -/
def setContent (text : String) : Modifier :=
  ⟨fun d => ⟨some (d.Set contentKey (.obj (.cons "text" (.str text) .nil))), true, none⟩,
   fun d => d.Set contentKey (.obj (.cons "text" (.str text) .nil))⟩

/-- A raw modifier that replaces the content of the document by `text` in a copy and leaves
the value it was given alone. -/
def setContentCopy (text : String) : Modifier :=
  ⟨fun d => ⟨some (d.Set contentKey (.obj (.cons "text" (.str text) .nil))), true, none⟩,
   fun d => d⟩

/-- A raw modifier that overwrites the creator field with `creator`, in place. -/
def setCreatorField (creator : String) : Modifier :=
  ⟨fun d => ⟨some (d.Set creatorKey (.str creator)), true, none⟩,
   fun d => d.Set creatorKey (.str creator)⟩

/-- A raw modifier that leaves the document as it is and reports no modification. -/
def keepDocument : Modifier :=
  ⟨fun d => ⟨some d, false, none⟩, fun d => d⟩

/-- A create of the message `m2` with payload `value`, submitted by `creator` in a change set
of order `order`. -/
def sampleCreate (creator order : String) (value : Doc) : ChangeOp :=
  ⟨⟨"changeSet3", order, .create "m2" value, creator, 7⟩, sampleState, value⟩

/-- A create payload whose creator field is already filled in by the sender. -/
def samplePayload : Doc :=
  .cons contentKey (.obj (.cons "text" (.str "hi") .nil)) (.cons creatorKey (.str "u9") .nil)

/-! ## Change sets -/

/-- A change set as the package test builds it (`storestate.ChangeSet`): its id, its order,
its changes and its creator, and the timestamp the hooks read from each change. -/
structure ChangeSet where
  Id : String
  Order : String
  Changes : List StoreChangeContent
  Creator : String
  Timestamp : Int
  deriving DecidableEq, Repr

/-- Modelled from the spec: the store behind the transaction (§4.2), absent from the
sources: the chat collection and the ids of the change sets committed so far. -/
structure Store where
  coll : Collection
  committed : List String
  deriving DecidableEq, Repr

/-- Modelled from the spec: `Collection.insert(doc)` and `Collection.mutate(id, operation)`
of the persistence collaborator (§6): the document stored under `id` becomes `doc`. -/
def Collection.put (c : Collection) (id : String) (doc : Doc) : Collection :=
  if (c.docs.lookup id).isSome then
    ⟨c.docs.map (fun entry => if entry.1 = id then (id, doc) else entry)⟩
  else
    ⟨c.docs ++ [(id, doc)]⟩

/-- Modelled from the spec: `Collection.delete(id)` of the persistence collaborator (§6). -/
def Collection.erase (c : Collection) (id : String) : Collection :=
  ⟨c.docs.filter (fun entry => entry.1 ≠ id)⟩

/-- What the hooks of one change of a change set receive: the change with the id, order,
creator and timestamp of the set, the collection as the earlier changes of the set left it,
and the payload. -/
def ChangeSet.op (set : ChangeSet) (change : StoreChangeContent) (coll : Collection)
    (value : Doc) : ChangeOp :=
  ⟨⟨set.Id, set.Order, change, set.Creator, set.Timestamp⟩, ⟨fun _ => .ok coll⟩, value⟩

/-- Modelled from the spec: the key modifications of one modify change (§4.3
`wrapKeyPathModifier`), applied in sequence to the target document. Each raw per-key
operation `raw key` is wrapped by `UpgradeKeyModifier`; the first error stops the sequence.
The store's modify step is absent from the sources, and so is the way it builds the raw
operation of a key, which is a parameter. Returns the error, the document and the
subscription. -/
def applyKeys (d : ChatHandler) (ch : ChangeOp) (raw : KeyModify → Modifier) :
    List KeyModify → Doc → chatobject.subscription →
      Option GoError × Doc × chatobject.subscription
  | [], doc, sub => (none, doc, sub)
  | key :: rest, doc, sub =>
    let out := ChatHandler.UpgradeKeyModifier ⟨d.chatId, sub⟩ ch key (raw key) doc
    match out.1.err with
    | some err => (some err, doc, out.2)
    | none =>
      applyKeys d ch raw rest (if out.1.modified then out.1.result.getD doc else doc) out.2

/-- Modelled from the spec: the application of one change (§4.2): the handler hook is
dispatched; on approval the raw mutation is performed on the collection, on rejection the
error of the hook is returned. A created document is stored under its id, which is also
written into it; a deleted document is removed. The store's apply step is absent from the
sources. Returns the error, the collection and the subscription. -/
def applyChange (d : ChatHandler) (raw : KeyModify → Modifier) (set : ChangeSet)
    (coll : Collection) (sub : chatobject.subscription) (change : StoreChangeContent) :
    Option GoError × Collection × chatobject.subscription :=
  match change with
  | .create documentId value =>
    let out := ChatHandler.BeforeCreate ⟨d.chatId, sub⟩ (set.op change coll value)
    match out.2.1 with
    | some err => (some err, coll, out.2.2)
    | none => (none, coll.put documentId (out.1.Set "id" (.str documentId)), out.2.2)
  | .modify documentId keys =>
    let out := ChatHandler.BeforeModify ⟨d.chatId, sub⟩ (set.op change coll .nil)
    match out.2 with
    | some err => (some err, coll, sub)
    | none =>
      match modifyTarget out.1 coll documentId with
      | .error err => (some err, coll, sub)
      | .ok doc =>
        let res := applyKeys d (set.op change coll .nil) raw keys doc sub
        match res.1 with
        | some err => (some err, coll, res.2.2)
        | none => (none, coll.put documentId res.2.1, res.2.2)
  | .delete documentId =>
    let out := ChatHandler.BeforeDelete ⟨d.chatId, sub⟩ (set.op change coll .nil)
    match out.2.1 with
    | some err => (some err, coll, out.2.2)
    | none => (none, coll.erase documentId, out.2.2)

/-- Modelled from the spec: the changes of a set applied in sequence (§4.2); the first
rejection stops the sequence. -/
def applyChanges (d : ChatHandler) (raw : KeyModify → Modifier) (set : ChangeSet) :
    List StoreChangeContent → Collection → chatobject.subscription →
      Option GoError × Collection × chatobject.subscription
  | [], coll, sub => (none, coll, sub)
  | change :: rest, coll, sub =>
    let out := applyChange d raw set coll sub change
    match out.1 with
    | some err => (some err, out.2.1, out.2.2)
    | none => applyChanges d raw set rest out.2.1 out.2.2

/-- Modelled from the spec: `applyChangeSet` followed by `commit` (§4.2), absent from the
sources. A change set whose id was already committed returns the prior result without
running hooks or mutations. Otherwise its changes are applied in sequence; a rejection aborts
the whole set, so that the store is left as it was, and surfaces the error of the hook;
without rejection the mutations are committed together with the id of the set. The
subscription is the one the hooks have notified (§4.4: the hooks notify synchronously, ahead
of the commit). Returns the error, the store and the subscription. -/
def ApplyChangeSet (d : ChatHandler) (raw : KeyModify → Modifier) (s : Store)
    (set : ChangeSet) : Option GoError × Store × chatobject.subscription :=
  if set.Id ∈ s.committed then
    (none, s, d.subscription)
  else
    let out := applyChanges d raw set set.Changes s.coll d.subscription
    match out.1 with
    | some err => (some err, s, out.2.2)
    | none => (none, ⟨out.2.1, set.Id :: s.committed⟩, out.2.2)

/-- A store that holds `sampleMessage` and has committed no change set yet. -/
def sampleStore : Store := ⟨sampleCollection, []⟩

/-- The raw operation of a key in the samples: the content is replaced by `bye`. -/
def sampleRaw : KeyModify → Modifier := fun _ => setContent "bye"

/-- A raw modifier that records a reaction of `identity` in the document, in place. -/
def addReaction (identity : String) : Modifier :=
  ⟨fun d => ⟨some (d.Set reactionsKey (.obj (.cons "like" (.arr (.cons (.str identity) .nil))
      .nil))), true, none⟩,
   fun d => d.Set reactionsKey (.obj (.cons "like" (.arr (.cons (.str identity) .nil)) .nil))⟩

/-- The raw operation of a key in the reaction samples: a reaction of `u2` is recorded. -/
def sampleReactionRaw : KeyModify → Modifier := fun _ => addReaction "u2"

/-- A change set of `creator` that deletes the message `m1`. -/
def sampleDeleteSet (creator : String) : ChangeSet :=
  ⟨"changeSet6", "order6", [.delete "m1"], creator, 10⟩

/-- A change set of `creator` that modifies the message `m1` along the reactions key path. -/
def sampleReactionSet (creator : String) : ChangeSet :=
  ⟨"changeSet7", "order7", [.modify "m1" [⟨[reactionsKey, "like"]⟩]], creator, 11⟩

/-- A change set of `creator` that creates the message `m2`. -/
def sampleCreateSet (creator : String) : ChangeSet :=
  ⟨"changeSet5", "order5", [.create "m2" samplePayload], creator, 9⟩

end chatobject

/-! # Relations mapper of the account object

A shallow embedding of `core/block/editor/accountobject/relationsmapper.go`. -/

namespace accountobject

open chatobject (Doc JVal)

/-- Type of a mapped key (`KeyType`). The file declares the first two constants and uses the
third, which is declared elsewhere in the package. -/
inductive KeyType where
  | KeyTypeString
  | KeyTypeInt64
  | KeyTypeBool
  deriving DecidableEq, Repr

/-- A relation value (`types.Value`), as far as the mapper reads it: null, a number, a
string or a boolean. The code holds a number as a `float64` and converts it with
`int64(...)`; here a number is the integer it stands for, which is exact for the integers
between `-2^53` and `2^53`. Rounding of larger integers and overflow of the conversion are
not modelled, so statements about numbers are made for that range only. -/
inductive Value where
  | null
  | numberValue (n : Int)
  | stringValue (s : String)
  | boolValue (b : Bool)
  deriving DecidableEq, Repr

/-- Getter `GetStringValue`: the empty string unless the value is a string. -/
def Value.GetStringValue : Value → String
  | .stringValue s => s
  | _ => ""

/-- Getter `GetNumberValue`: zero unless the value is a number. -/
def Value.GetNumberValue : Value → Int
  | .numberValue n => n
  | _ => 0

/-- Getter `GetBoolValue`: false unless the value is a boolean. -/
def Value.GetBoolValue : Value → Bool
  | .boolValue b => b
  | _ => false

/-- Constructor `pbtypes.String`. -/
def pbtypesString (s : String) : Value := .stringValue s
/-- Constructor `pbtypes.Int64`. -/
def pbtypesInt64 (n : Int) : Value := .numberValue n
/-- Constructor `pbtypes.Bool`. -/
def pbtypesBool (b : Bool) : Value := .boolValue b

/-- A Go value of interface type `any`: nil, or a dynamic type together with a value of that
type. Two interface values are equal when their dynamic types and their values are. -/
inductive GoAny where
  | nil
  | string (s : String)
  | int64 (n : Int)
  | int (n : Int)
  | bool (b : Bool)
  deriving DecidableEq, Repr

/-- The JSON value a store value is written as in a document. -/
def GoAny.toJSON : GoAny → JVal
  | .nil => .null
  | .string s => .str s
  | .int64 n => .num n
  | .int n => .num n
  | .bool b => .bool b

/-- The mapper: its keys with their types. -/
structure relationsMapper where
  keys : List (String × KeyType)
  deriving DecidableEq, Repr

/-- Constructor `newRelationsMapper`. -/
def newRelationsMapper (keys : List (String × KeyType)) : relationsMapper := ⟨keys⟩

/-- Method `GetRelationKey`: the relation value read from the document `val` under `key`. -/
def relationsMapper.GetRelationKey (r : relationsMapper) (key : String) (val : Doc) :
    Option Value × Bool :=
  match r.keys.lookup key with
  | none => (none, false)
  | some kt =>
    match kt with
    | .KeyTypeString =>
      match val.GetStringBytes key with
      | none => (none, false)
      | some bytes => (some (pbtypesString bytes), true)
    | .KeyTypeInt64 =>
      let n := val.GetInt64 key
      if n = 0 then (none, false) else (some (pbtypesInt64 n), true)
    | .KeyTypeBool => (some (pbtypesBool (val.GetBool key)), true)

/-- Method `GetStoreKey`: the store value for the relation value `val` under `key`. The
result `res` has type `any`, so `res == ""` compares it with the string `""` and `res == 0`
compares it with the `int` zero, the default type of the untyped constant. -/
def relationsMapper.GetStoreKey (r : relationsMapper) (key : String) (val : Value) :
    GoAny × Bool :=
  match r.keys.lookup key with
  | none => (.nil, false)
  | some kt =>
    match kt with
    | .KeyTypeString =>
      let res := GoAny.string val.GetStringValue
      if res = GoAny.string "" then (.nil, false) else (res, true)
    | .KeyTypeInt64 =>
      let res := GoAny.int64 val.GetNumberValue
      if res = GoAny.int 0 then (.nil, false) else (res, true)
    | .KeyTypeBool =>
      let res := GoAny.bool val.GetBoolValue
      (res, true)

/-- Whether a relation value is of the kind of a key type. -/
def Value.hasKind : Value → KeyType → Bool
  | .stringValue _, .KeyTypeString => true
  | .numberValue _, .KeyTypeInt64 => true
  | .boolValue _, .KeyTypeBool => true
  | _, _ => false

/-- A mapper with one key of each type. -/
def sampleMapper : relationsMapper :=
  newRelationsMapper [("name", .KeyTypeString), ("count", .KeyTypeInt64),
    ("hidden", .KeyTypeBool)]

end accountobject

/-! # Dashboard

A shallow embedding of `Dashboard.updateObjects` of `core/block/editor/dashboard.go`. -/

namespace editor

open chatobject (GoError)

/-- A record of the object store; `updateObjects` reads the id relation of its details
only. -/
structure Record where
  Id : String
  deriving DecidableEq, Repr

/-- A call `ModifyLocalDetails(id, ...)` launched by `updateObjects`, whose callback sets the
favorite relation of the object to `isFavorite`. -/
structure FavoriteRequest where
  id : String
  isFavorite : Bool
  deriving DecidableEq, Repr

/-- What `updateObjects` reads from the dashboard: the ids of its collection (`GetIds`) and
the answer of the object store to the query for the favorite objects of the space. -/
structure Dashboard where
  GetIds : Except GoError (List String)
  Query : Except GoError (List Record)

/-- Method `updateObjects`: the error it returns and the calls it launches, in the order of
launching. `DifferenceRemovedAdded` is the helper of package `slice`, which is not part of
the sources and is a parameter. Each call runs in a goroutine of its own; its failure is
logged and not returned. -/
def Dashboard.updateObjects (p : Dashboard)
    (DifferenceRemovedAdded : List String → List String → List String × List String) :
    Option GoError × List FavoriteRequest :=
  match p.GetIds with
  | .error err => (some err, [])
  | .ok favoritedIds =>
    match p.Query with
    | .error err => (some err, [])
    | .ok records =>
      let storeFavoritedIds := records.map (fun rec => rec.Id)
      let diff := DifferenceRemovedAdded storeFavoritedIds favoritedIds
      let removedIds := diff.1
      let addedIds := diff.2
      (none, removedIds.map (fun id => ⟨id, false⟩) ++ addedIds.map (fun id => ⟨id, true⟩))

/-- A helper for the samples: the elements of the first list that are not in the second,
and the elements of the second that are not in the first. -/
def sampleDifference (a b : List String) : List String × List String :=
  (a.filter (fun x => !b.contains x), b.filter (fun x => !a.contains x))

/-- A dashboard whose collection holds `a` and `b` while the store reports `b` and `c` as
favorite. -/
def sampleDashboard : Dashboard :=
  ⟨.ok ["a", "b"], .ok [⟨"b"⟩, ⟨"c"⟩]⟩

end editor

namespace chatobject

/-! ## Lemmas on documents and errors -/

theorem Doc.Get_Set_same : ∀ (d : Doc) (key : String) (val : JVal),
    (d.Set key val).Get key = some val
  | .nil, key, val => by simp [Doc.Set, Doc.Get]
  | .cons k v tl, key, val => by
    have ih := Doc.Get_Set_same tl key val
    by_cases h : k = key
    · simp [Doc.Set, Doc.Get, h]
    · simp [Doc.Set, Doc.Get, h, ih]

theorem Doc.Get_Set_other : ∀ (d : Doc) (key other : String) (val : JVal), key ≠ other →
    (d.Set key val).Get other = d.Get other
  | .nil, key, other, val, hne => by simp [Doc.Set, Doc.Get, hne]
  | .cons k v tl, key, other, val, hne => by
    have ih := Doc.Get_Set_other tl key other val hne
    by_cases h : k = key
    · subst h
      simp [Doc.Set, Doc.Get, hne]
    · by_cases h2 : k = other
      · subst h2
        simp [Doc.Set, Doc.Get, h]
      · simp [Doc.Set, Doc.Get, h, h2, ih]

theorem errorsIs_wrap (msg : String) (inner target : GoError) :
    errorsIs (.wrap msg inner) target = errorsIs inner target := rfl

theorem errorsIs_errorsNew (msg : String) (target : GoError) :
    errorsIs (.errorsNew msg) target = false := rfl

/-! ## Deleting a message -/

/-- C1: for a delete change whose target message exists in the chat collection, the
collection being available, `BeforeDelete` returns an error exactly when the creator stored
in the message differs from the creator of the change. -/
theorem BeforeDelete_error_iff_not_creator (d : ChatHandler) (ch : ChangeOp)
    (coll : Collection) (messageId : String) (doc : Doc)
    (hdel : ch.Change.Change = .delete messageId)
    (hcoll : ch.State.Collection collectionName = .ok coll)
    (hdoc : coll.docs.lookup messageId = some doc) :
    (d.BeforeDelete ch).2.1 ≠ none ↔ doc.GetString creatorKey ≠ ch.Change.Creator := by
  by_cases hc : doc.GetString creatorKey = ch.Change.Creator <;>
    simp [ChatHandler.BeforeDelete, hcoll, hdel, StoreChangeContent.GetDeleteDocumentId,
      Collection.FindId, hdoc, newMessageWrapper, messageWrapper.getCreator, hc]

theorem BeforeDelete_error_iff_not_creator_witness :
    sampleCollection.docs.lookup "m1" = some sampleMessage ∧
    ((sampleHandler.BeforeDelete (sampleDelete "u2" "m1")).2.1 ≠ none ↔
      sampleMessage.GetString creatorKey ≠ "u2") :=
  ⟨by decide,
   BeforeDelete_error_iff_not_creator sampleHandler (sampleDelete "u2" "m1") sampleCollection
     "m1" sampleMessage rfl rfl (by decide)⟩

/-! ## Modifying a message along a key path -/

/-- C2, as stated, fails. First, `u3` submits a content modify of the message written by `u1`
with a raw modifier that overwrites the creator field with `u3`: the creator of the change
differs from the creator of the message, yet the upgraded modifier returns no error and
`modified = true`. Second, `u2` submits a content modify of that message with a raw modifier
that works in place: the modify is rejected, but the value handed back is the input as the
raw modifier left it, with the new content, not the original input. -/
theorem UpgradeKeyModifier_content_rejection_counterexample :
    sampleMessage.GetString creatorKey ≠ (sampleModify "u3" [contentKey]).Change.Creator ∧
    ((setCreatorField "u3") sampleMessage).modified = true ∧
    (sampleHandler.UpgradeKeyModifier (sampleModify "u3" [contentKey]) ⟨[contentKey]⟩
        (setCreatorField "u3") sampleMessage).1 =
      ⟨some (sampleMessage.Set creatorKey (.str "u3")), true, none⟩ ∧
    (sampleHandler.UpgradeKeyModifier (sampleModify "u2" [contentKey]) ⟨[contentKey]⟩
        (setContent "bye") sampleMessage).1.err =
      some (.join ErrValidation (.errorsNew "can't modify not own message")) ∧
    (sampleHandler.UpgradeKeyModifier (sampleModify "u2" [contentKey]) ⟨[contentKey]⟩
        (setContent "bye") sampleMessage).1.result =
      some (sampleMessage.Set contentKey (.obj (.cons "text" (.str "bye") .nil))) ∧
    (sampleHandler.UpgradeKeyModifier (sampleModify "u2" [contentKey]) ⟨[contentKey]⟩
        (setContent "bye") sampleMessage).1.result ≠ some sampleMessage := by
  decide

/-- C2, amended: on the content key path, when the raw modifier reports a modification and the
creator of the change differs from the creator recorded in the document as the raw modifier
returns it, the upgraded modifier returns a validation error, reports no modification and
notifies nobody. The value it returns is the input value as the call of the raw modifier left
it, not the result of the raw modifier; it is the original input when the raw modifier leaves
its input alone. -/
theorem UpgradeKeyModifier_content_rejects_other_creator (d : ChatHandler) (ch : ChangeOp)
    (key : KeyModify) (mod : Modifier) (v : Doc) (rest : List String)
    (hkey : key.KeyPath = contentKey :: rest)
    (herr : (mod v).err = none) (hmod : (mod v).modified = true)
    (hcreator : (newMessageWrapper (mod v).result).toModel.Creator ≠ ch.Change.Creator) :
    (∃ e, (d.UpgradeKeyModifier ch key mod v).1.err = some e ∧ errorsIs e ErrValidation = true) ∧
    (d.UpgradeKeyModifier ch key mod v).1.modified = false ∧
    (d.UpgradeKeyModifier ch key mod v).1.result = some (mod.inPlace v) ∧
    (mod.inPlace v = v → (d.UpgradeKeyModifier ch key mod v).1.result = some v) ∧
    (d.UpgradeKeyModifier ch key mod v).2 = d.subscription := by
  have hk : contentKey ≠ reactionsKey := by decide
  have hres : (d.UpgradeKeyModifier ch key mod v).1.result = some (mod.inPlace v) := by
    simp [ChatHandler.UpgradeKeyModifier, hkey, herr, hmod, hk, hcreator]
  refine ⟨?_, ?_, hres, fun h => by rw [hres, h], ?_⟩ <;>
    simp [ChatHandler.UpgradeKeyModifier, hkey, herr, hmod, hk, hcreator, errorsIs,
      ErrValidation]

theorem UpgradeKeyModifier_content_rejects_other_creator_witness :
    (newMessageWrapper ((setContentCopy "bye") sampleMessage).result).toModel.Creator ≠ "u2" ∧
    (∃ e, (sampleHandler.UpgradeKeyModifier (sampleModify "u2" [contentKey]) ⟨[contentKey]⟩
        (setContentCopy "bye") sampleMessage).1.err = some e ∧
      errorsIs e ErrValidation = true) ∧
    (sampleHandler.UpgradeKeyModifier (sampleModify "u2" [contentKey]) ⟨[contentKey]⟩
        (setContentCopy "bye") sampleMessage).1.modified = false ∧
    (sampleHandler.UpgradeKeyModifier (sampleModify "u2" [contentKey]) ⟨[contentKey]⟩
        (setContentCopy "bye") sampleMessage).1.result =
      some ((setContentCopy "bye").inPlace sampleMessage) ∧
    ((setContentCopy "bye").inPlace sampleMessage = sampleMessage →
      (sampleHandler.UpgradeKeyModifier (sampleModify "u2" [contentKey]) ⟨[contentKey]⟩
        (setContentCopy "bye") sampleMessage).1.result = some sampleMessage) ∧
    (sampleHandler.UpgradeKeyModifier (sampleModify "u2" [contentKey]) ⟨[contentKey]⟩
        (setContentCopy "bye") sampleMessage).2 = sampleHandler.subscription :=
  ⟨by decide,
   UpgradeKeyModifier_content_rejects_other_creator sampleHandler
     (sampleModify "u2" [contentKey]) ⟨[contentKey]⟩ (setContentCopy "bye") sampleMessage []
     rfl rfl rfl (by decide)⟩

/-- C3, as stated, fails: `u2` submits a content modify of a message written by `u1` with a raw
modifier that overwrites the creator field with `u2`. The upgraded modifier succeeds and emits
a full update, although the creator recorded in the original document is `u1`. -/
theorem UpgradeKeyModifier_content_original_creator_counterexample :
    (sampleHandler.UpgradeKeyModifier (sampleModify "u2" [contentKey]) ⟨[contentKey]⟩
        (setCreatorField "u2") sampleMessage).1.err = none ∧
    (sampleHandler.UpgradeKeyModifier (sampleModify "u2" [contentKey]) ⟨[contentKey]⟩
        (setCreatorField "u2") sampleMessage).2 =
      sampleHandler.subscription.updateFull
        (newMessageWrapper ((setCreatorField "u2") sampleMessage).result).toModel ∧
    (sampleModify "u2" [contentKey]).Change.Creator ≠ sampleMessage.GetString creatorKey := by
  decide

/-- C3, amended: on the content key path the upgraded modifier succeeds and emits a full-update
notification only if the creator of the change equals the creator recorded in the document as
the raw modifier returns it, the modified document; the notification carries the model of
that document. -/
theorem UpgradeKeyModifier_content_updateFull_only_creator (d : ChatHandler) (ch : ChangeOp)
    (key : KeyModify) (mod : Modifier) (v : Doc) (rest : List String) (model : ChatMessage)
    (hkey : key.KeyPath = contentKey :: rest)
    (hok : (d.UpgradeKeyModifier ch key mod v).1.err = none)
    (hfull : (d.UpgradeKeyModifier ch key mod v).2 = d.subscription.updateFull model) :
    ch.Change.Creator = (newMessageWrapper (mod v).result).toModel.Creator ∧
    model = (newMessageWrapper (mod v).result).toModel := by
  have hk : contentKey ≠ reactionsKey := by decide
  have hself : ∀ m : ChatMessage, d.subscription ≠ d.subscription.updateFull m := by
    intro m h
    have := congrArg (fun s => s.events.length) h
    simp [subscription.updateFull] at this
  unfold ChatHandler.UpgradeKeyModifier at hok hfull
  simp only [hkey] at hok hfull
  cases herr : (mod v).err with
  | some e => simp [herr] at hok
  | none =>
    cases hmod : (mod v).modified with
    | false =>
      simp only [herr, hmod] at hfull
      exact absurd hfull (hself model)
    | true =>
      by_cases hc : (newMessageWrapper (mod v).result).toModel.Creator = ch.Change.Creator
      · simp [herr, hmod, hk, hc, subscription.updateFull] at hfull
        exact ⟨hc.symm, hfull.symm⟩
      · simp [herr, hmod, hk, hc] at hok

theorem UpgradeKeyModifier_content_updateFull_only_creator_witness :
    (sampleHandler.UpgradeKeyModifier (sampleModify "u1" [contentKey]) ⟨[contentKey]⟩
        (setContent "bye") sampleMessage).1.err = none ∧
    (sampleModify "u1" [contentKey]).Change.Creator =
      (newMessageWrapper ((setContent "bye") sampleMessage).result).toModel.Creator ∧
    (newMessageWrapper ((setContent "bye") sampleMessage).result).toModel =
      (newMessageWrapper ((setContent "bye") sampleMessage).result).toModel :=
  ⟨by decide,
   UpgradeKeyModifier_content_updateFull_only_creator sampleHandler
     (sampleModify "u1" [contentKey]) ⟨[contentKey]⟩ (setContent "bye") sampleMessage []
     (newMessageWrapper ((setContent "bye") sampleMessage).result).toModel
     rfl (by decide) (by decide)⟩

/-- C4, as stated, fails: on the unknown key path `title` a raw modifier that reports no
modification passes through the upgraded modifier without an error. -/
theorem UpgradeKeyModifier_unknown_path_counterexample :
    "title" ≠ reactionsKey ∧ "title" ≠ contentKey ∧
    (sampleHandler.UpgradeKeyModifier (sampleModify "u1" ["title"]) ⟨["title"]⟩
        keepDocument sampleMessage).1 = ⟨some sampleMessage, false, none⟩ := by
  decide

/-- C4, amended: for a non-empty key path whose first element is neither the reactions key
nor the content key, the upgraded modifier returns an error exactly when the raw modifier
fails or reports a modification; a raw modifier that reports no modification passes through
without an error. No notification is emitted either way. -/
theorem UpgradeKeyModifier_unknown_path_error_iff (d : ChatHandler) (ch : ChangeOp)
    (key : KeyModify) (mod : Modifier) (v : Doc) (path : String) (rest : List String)
    (hkey : key.KeyPath = path :: rest)
    (hreactions : path ≠ reactionsKey) (hcontent : path ≠ contentKey) :
    ((d.UpgradeKeyModifier ch key mod v).1.err ≠ none ↔
      ((mod v).err ≠ none ∨ (mod v).modified = true)) ∧
    (d.UpgradeKeyModifier ch key mod v).2 = d.subscription := by
  unfold ChatHandler.UpgradeKeyModifier
  simp only [hkey]
  cases herr : (mod v).err with
  | some e => simp
  | none =>
    cases hmod : (mod v).modified <;> simp [hreactions, hcontent]

theorem UpgradeKeyModifier_unknown_path_error_iff_witness :
    "title" ≠ reactionsKey ∧ "title" ≠ contentKey ∧
    ((sampleHandler.UpgradeKeyModifier (sampleModify "u1" ["title"]) ⟨["title"]⟩
        (setContent "bye") sampleMessage).1.err ≠ none ↔
      (((setContent "bye") sampleMessage).err ≠ none ∨
        ((setContent "bye") sampleMessage).modified = true)) ∧
    (sampleHandler.UpgradeKeyModifier (sampleModify "u1" ["title"]) ⟨["title"]⟩
        (setContent "bye") sampleMessage).2 = sampleHandler.subscription :=
  ⟨by decide, by decide,
   UpgradeKeyModifier_unknown_path_error_iff sampleHandler (sampleModify "u1" ["title"])
     ⟨["title"]⟩ (setContent "bye") sampleMessage "title" [] rfl (by decide) (by decide)⟩

/-! ## Authorization -/

/-- C5, as stated, fails on the message of `u1`. The delete by `u2` is rejected with
an error that matches no error variable, and the content modify by `u2` with an error that
matches the validation error variable and no other: neither is of an `Unauthorized` kind.
A content modify by `u2` whose raw modifier reports no modification is not rejected, and
neither is one by `u4` whose raw modifier overwrites the creator field with `u4`. A rejected
modify whose raw modifier works in place hands back the changed value. -/
theorem unauthorized_kind_counterexample :
    (sampleHandler.BeforeDelete (sampleDelete "u2" "m1")).2.1 =
      some (.errorsNew "can't delete not own message") ∧
    (∀ target, errorsIs (.errorsNew "can't delete not own message") target = false) ∧
    (sampleHandler.UpgradeKeyModifier (sampleModify "u2" [contentKey]) ⟨[contentKey]⟩
        (setContent "bye") sampleMessage).1.err =
      some (.join ErrValidation (.errorsNew "can't modify not own message")) ∧
    (∀ target, errorsIs (.join ErrValidation (.errorsNew "can't modify not own message"))
        target = true → target = ErrValidation) ∧
    (sampleHandler.UpgradeKeyModifier (sampleModify "u2" [contentKey]) ⟨[contentKey]⟩
        keepDocument sampleMessage).1.err = none ∧
    (sampleHandler.UpgradeKeyModifier (sampleModify "u4" [contentKey]) ⟨[contentKey]⟩
        (setCreatorField "u4") sampleMessage).1.err = none ∧
    (sampleHandler.UpgradeKeyModifier (sampleModify "u2" [contentKey]) ⟨[contentKey]⟩
        (setContent "later") sampleMessage).1.result ≠ some sampleMessage := by
  refine ⟨by decide, fun _ => rfl, by decide, ?_, by decide, by decide, by decide⟩
  intro target h
  simpa [errorsIs, ErrValidation, eq_comm] using h

/-- C5, amended: a delete of a stored message whose creator is not the creator of the change
is rejected with an error. A content modify is rejected when its raw modifier reports a
modification and the creator recorded in the document as the raw modifier returns it is not
the creator of the change; its error is a validation error. Neither emits a notification; the
rejected modifier reports `modified = false` and returns the input value as the call of the
raw modifier left it. -/
theorem other_creator_rejected (d : ChatHandler)
    (chDelete : ChangeOp) (coll : Collection) (messageId : String) (doc : Doc)
    (chModify : ChangeOp) (key : KeyModify) (mod : Modifier) (v : Doc) (rest : List String)
    (hdel : chDelete.Change.Change = .delete messageId)
    (hcoll : chDelete.State.Collection collectionName = .ok coll)
    (hdoc : coll.docs.lookup messageId = some doc)
    (hother : doc.GetString creatorKey ≠ chDelete.Change.Creator)
    (hkey : key.KeyPath = contentKey :: rest)
    (herr : (mod v).err = none) (hmod : (mod v).modified = true)
    (hcreator : (newMessageWrapper (mod v).result).toModel.Creator ≠ chModify.Change.Creator) :
    ((d.BeforeDelete chDelete).2.1 ≠ none ∧
      (d.BeforeDelete chDelete).2.2 = d.subscription) ∧
    ((∃ e, (d.UpgradeKeyModifier chModify key mod v).1.err = some e ∧
        errorsIs e ErrValidation = true) ∧
      (d.UpgradeKeyModifier chModify key mod v).1.result = some (mod.inPlace v) ∧
      (d.UpgradeKeyModifier chModify key mod v).1.modified = false ∧
      (d.UpgradeKeyModifier chModify key mod v).2 = d.subscription) := by
  have hk : contentKey ≠ reactionsKey := by decide
  constructor
  · simp [ChatHandler.BeforeDelete, hcoll, hdel, StoreChangeContent.GetDeleteDocumentId,
      Collection.FindId, hdoc, newMessageWrapper, messageWrapper.getCreator, hother]
  · simp [ChatHandler.UpgradeKeyModifier, hkey, herr, hmod, hk, hcreator, errorsIs,
      ErrValidation]

theorem other_creator_rejected_witness :
    (sampleMessage.GetString creatorKey ≠ (sampleDelete "u2" "m1").Change.Creator ∧
      (newMessageWrapper ((setContent "bye") sampleMessage).result).toModel.Creator ≠
        (sampleModify "u2" [contentKey]).Change.Creator) ∧
    ((sampleHandler.BeforeDelete (sampleDelete "u2" "m1")).2.1 ≠ none ∧
      (sampleHandler.BeforeDelete (sampleDelete "u2" "m1")).2.2 = sampleHandler.subscription) ∧
    ((∃ e, (sampleHandler.UpgradeKeyModifier (sampleModify "u2" [contentKey]) ⟨[contentKey]⟩
          (setContent "bye") sampleMessage).1.err = some e ∧
        errorsIs e ErrValidation = true) ∧
      (sampleHandler.UpgradeKeyModifier (sampleModify "u2" [contentKey]) ⟨[contentKey]⟩
          (setContent "bye") sampleMessage).1.result =
        some ((setContent "bye").inPlace sampleMessage) ∧
      (sampleHandler.UpgradeKeyModifier (sampleModify "u2" [contentKey]) ⟨[contentKey]⟩
          (setContent "bye") sampleMessage).1.modified = false ∧
      (sampleHandler.UpgradeKeyModifier (sampleModify "u2" [contentKey]) ⟨[contentKey]⟩
          (setContent "bye") sampleMessage).2 = sampleHandler.subscription) :=
  ⟨⟨by decide, by decide⟩,
   other_creator_rejected sampleHandler (sampleDelete "u2" "m1") sampleCollection "m1"
     sampleMessage (sampleModify "u2" [contentKey]) ⟨[contentKey]⟩ (setContent "bye")
     sampleMessage [] rfl rfl (by decide) (by decide) rfl rfl rfl (by decide)⟩

/-! ## Missing targets -/

/-- C6: for a delete change whose target id has no document in the chat collection,
`BeforeDelete` returns an error that wraps the not-found error of the store, and the
subscription receives nothing. -/
theorem BeforeDelete_missing_not_found (d : ChatHandler) (ch : ChangeOp) (coll : Collection)
    (messageId : String)
    (hdel : ch.Change.Change = .delete messageId)
    (hcoll : ch.State.Collection collectionName = .ok coll)
    (hdoc : coll.docs.lookup messageId = none) :
    (∃ e, (d.BeforeDelete ch).2.1 = some e ∧ errorsIs e ErrDocNotFound = true) ∧
    (d.BeforeDelete ch).2.2 = d.subscription := by
  simp [ChatHandler.BeforeDelete, hcoll, hdel, StoreChangeContent.GetDeleteDocumentId,
    Collection.FindId, hdoc, errorsIs, ErrDocNotFound]

theorem BeforeDelete_missing_not_found_witness :
    sampleCollection.docs.lookup "m7" = none ∧
    (∃ e, (sampleHandler.BeforeDelete (sampleDelete "u1" "m7")).2.1 = some e ∧
      errorsIs e ErrDocNotFound = true) ∧
    (sampleHandler.BeforeDelete (sampleDelete "u1" "m7")).2.2 = sampleHandler.subscription :=
  ⟨by decide,
   BeforeDelete_missing_not_found sampleHandler (sampleDelete "u1" "m7") sampleCollection "m7"
     rfl rfl (by decide)⟩

theorem Collection.FindId_put_absent (c : Collection) (id : String) (doc : Doc)
    (habsent : c.docs.lookup id = none) : (c.put id doc).FindId id = .ok doc := by
  have hlookup : ∀ entries : List (String × Doc), entries.lookup id = none →
      (entries ++ [(id, doc)]).lookup id = some doc := by
    intro entries
    induction entries with
    | nil => intro _; simp [List.lookup]
    | cons entry tail ih =>
      obtain ⟨k, value⟩ := entry
      intro h
      by_cases hk : id = k
      · subst hk
        simp [List.lookup] at h
      · have hbeq : (id == k) = false := by simpa using hk
        simp only [List.cons_append, List.lookup, hbeq] at h ⊢
        exact ih h
  simp [Collection.put, Collection.FindId, habsent, hlookup c.docs habsent]

/-- C7, as stated, fails: `u1` deletes the message `m1`, which leaves the collection without
it; then `u2` submits a modify of `m1` along the reactions key path. `BeforeModify` answers
with the upsert mode and no error, the change set is applied without error, and the
collection holds a document under `m1` again. -/
theorem BeforeModify_deleted_target_counterexample :
    (ApplyChangeSet sampleHandler sampleRaw sampleStore (sampleDeleteSet "u1")).1 = none ∧
    (ApplyChangeSet sampleHandler sampleRaw sampleStore (sampleDeleteSet "u1")).2.1.coll.FindId
      "m1" = .error ErrDocNotFound ∧
    sampleHandler.BeforeModify
        ((sampleReactionSet "u2").op (.modify "m1" [⟨[reactionsKey, "like"]⟩])
          (ApplyChangeSet sampleHandler sampleRaw sampleStore (sampleDeleteSet "u1")).2.1.coll
          .nil) = (.ModifyModeUpsert, none) ∧
    (ApplyChangeSet sampleHandler sampleReactionRaw
        (ApplyChangeSet sampleHandler sampleRaw sampleStore (sampleDeleteSet "u1")).2.1
        (sampleReactionSet "u2")).1 = none ∧
    (ApplyChangeSet sampleHandler sampleReactionRaw
        (ApplyChangeSet sampleHandler sampleRaw sampleStore (sampleDeleteSet "u1")).2.1
        (sampleReactionSet "u2")).2.1.coll.FindId "m1" =
      .ok (.cons "id" (.str "m1")
        (.cons reactionsKey (.obj (.cons "like" (.arr (.cons (.str "u2") .nil)) .nil)) .nil)) :=
  ⟨by decide, rfl, rfl, by decide, rfl⟩

/-- C7, amended: `BeforeModify` answers every modify change with the upsert mode and no
error, so the deleted state is not terminal: a modify along the reactions key path that
targets a document id absent from the collection (deleted, or never created) and whose raw
operation reports a modification does not fail with the not-found error; the change set is
applied without error and a document is stored under that id again. -/
theorem modify_recreates_absent_target (d : ChatHandler) (raw : KeyModify → Modifier)
    (s : Store) (set : ChangeSet) (documentId : String) (key : KeyModify)
    (rest : List String) (r : Doc)
    (hnew : set.Id ∉ s.committed)
    (habsent : s.coll.docs.lookup documentId = none)
    (hchanges : set.Changes = [.modify documentId [key]])
    (hkey : key.KeyPath = reactionsKey :: rest)
    (hraw : (raw key) (.cons "id" (.str documentId) .nil) = ⟨some r, true, none⟩) :
    d.BeforeModify (set.op (.modify documentId [key]) s.coll .nil) = (.ModifyModeUpsert, none) ∧
    (ApplyChangeSet d raw s set).1 = none ∧
    (ApplyChangeSet d raw s set).2.1.coll.FindId documentId = .ok r := by
  have hfind : s.coll.FindId documentId = .error ErrDocNotFound := by
    simp [Collection.FindId, habsent]
  have hstep : applyChanges d raw set set.Changes s.coll d.subscription =
      (none, s.coll.put documentId r,
        d.subscription.updateReactions (newMessageWrapper (some r)).toModel) := by
    simp [hchanges, applyChanges, applyChange, ChatHandler.BeforeModify, modifyTarget, hfind,
      applyKeys, ChatHandler.UpgradeKeyModifier, hkey, hraw]
  refine ⟨rfl, ?_, ?_⟩
  · simp [ApplyChangeSet, hnew, hstep]
  · simp only [ApplyChangeSet, hnew, hstep, if_false]
    exact Collection.FindId_put_absent s.coll documentId r habsent

theorem modify_recreates_absent_target_witness :
    (Store.mk ⟨[]⟩ ["changeSet6"]).coll.docs.lookup "m1" = none ∧
    sampleHandler.BeforeModify
        ((sampleReactionSet "u2").op (.modify "m1" [⟨[reactionsKey, "like"]⟩])
          (Store.mk ⟨[]⟩ ["changeSet6"]).coll .nil) = (.ModifyModeUpsert, none) ∧
    (ApplyChangeSet sampleHandler sampleReactionRaw (Store.mk ⟨[]⟩ ["changeSet6"])
        (sampleReactionSet "u2")).1 = none ∧
    (ApplyChangeSet sampleHandler sampleReactionRaw (Store.mk ⟨[]⟩ ["changeSet6"])
        (sampleReactionSet "u2")).2.1.coll.FindId "m1" =
      .ok (.cons "id" (.str "m1")
        (.cons reactionsKey (.obj (.cons "like" (.arr (.cons (.str "u2") .nil)) .nil)) .nil)) :=
  ⟨rfl,
   modify_recreates_absent_target sampleHandler sampleReactionRaw (Store.mk ⟨[]⟩ ["changeSet6"])
     (sampleReactionSet "u2") "m1" ⟨[reactionsKey, "like"]⟩ ["like"]
     (.cons "id" (.str "m1")
        (.cons reactionsKey (.obj (.cons "like" (.arr (.cons (.str "u2") .nil)) .nil)) .nil))
     (by decide) rfl rfl rfl rfl⟩

/-! ## Notifications -/

/-- C8: `BeforeDelete` either returns no error, the hard-delete mode, and notifies the
subscription of the deletion of exactly the target message id, or returns an error and leaves
the subscription as it was; the two outcomes differ in the subscription, so the deletion is
notified if and only if no error is returned. -/
theorem BeforeDelete_notifies_iff_success (d : ChatHandler) (ch : ChangeOp) :
    d.subscription.delete ch.Change.Change.GetDeleteDocumentId ≠ d.subscription ∧
    (((d.BeforeDelete ch).2.1 = none ∧ (d.BeforeDelete ch).1 = .DeleteModeDelete ∧
        (d.BeforeDelete ch).2.2 = d.subscription.delete ch.Change.Change.GetDeleteDocumentId) ∨
      ((d.BeforeDelete ch).2.1 ≠ none ∧ (d.BeforeDelete ch).2.2 = d.subscription)) := by
  constructor
  · intro h
    have := congrArg (fun s => s.events.length) h
    simp [subscription.delete] at this
  · unfold ChatHandler.BeforeDelete
    cases ch.State.Collection collectionName with
    | error e => simp
    | ok coll =>
      cases hf : coll.FindId ch.Change.Change.GetDeleteDocumentId with
      | error e => simp [hf]
      | ok doc =>
        by_cases hc : (newMessageWrapper (some doc)).getCreator = ch.Change.Creator <;>
          simp [hf, hc]

/-- C9: on the reactions key path, when the raw modifier reports a modification, the
upgraded modifier returns the result of the raw modifier with `modified = true` and no
error, and the subscription receives exactly one more notification: a reactions update that
carries the model of the modified document. This holds for every creator of the change. -/
theorem UpgradeKeyModifier_reactions (d : ChatHandler) (ch : ChangeOp) (key : KeyModify)
    (mod : Modifier) (v : Doc) (rest : List String)
    (hkey : key.KeyPath = reactionsKey :: rest)
    (herr : (mod v).err = none) (hmod : (mod v).modified = true) :
    (d.UpgradeKeyModifier ch key mod v).1 = ⟨(mod v).result, true, none⟩ ∧
    (d.UpgradeKeyModifier ch key mod v).2.events =
      d.subscription.events ++ [.updateReactions (newMessageWrapper (mod v).result).toModel] := by
  simp [ChatHandler.UpgradeKeyModifier, hkey, herr, hmod, subscription.updateReactions]

theorem UpgradeKeyModifier_reactions_witness :
    (sampleHandler.UpgradeKeyModifier (sampleModify "u2" [reactionsKey, "like"])
        ⟨[reactionsKey, "like"]⟩ (setContent "bye") sampleMessage).1 =
      ⟨((setContent "bye") sampleMessage).result, true, none⟩ ∧
    (sampleHandler.UpgradeKeyModifier (sampleModify "u2" [reactionsKey, "like"])
        ⟨[reactionsKey, "like"]⟩ (setContent "bye") sampleMessage).2.events =
      sampleHandler.subscription.events ++
        [.updateReactions (newMessageWrapper ((setContent "bye") sampleMessage).result).toModel] :=
  UpgradeKeyModifier_reactions sampleHandler (sampleModify "u2" [reactionsKey, "like"])
    ⟨[reactionsKey, "like"]⟩ (setContent "bye") sampleMessage ["like"] rfl rfl rfl

/-! ## Creating a message -/

/-- C10, as stated, fails: the payload after `BeforeCreate` holds the creator and the creation
time, and it is the same payload whatever the order of the change is, so the order cannot be
read back from it. -/
theorem BeforeCreate_order_counterexample :
    (sampleHandler.BeforeCreate (sampleCreate "u1" "order1" samplePayload)).1 =
      .cons contentKey (.obj (.cons "text" (.str "hi") .nil))
        (.cons creatorKey (.str "u1") (.cons createdAtKey (.num 7) .nil)) ∧
    ¬ ∃ readOrder : Doc → String, ∀ order : String,
      readOrder (sampleHandler.BeforeCreate (sampleCreate "u1" order samplePayload)).1 = order := by
  refine ⟨by decide, ?_⟩
  rintro ⟨readOrder, h⟩
  have h1 := h "order1"
  have h2 := h "order2"
  have hsame : (sampleHandler.BeforeCreate (sampleCreate "u1" "order1" samplePayload)).1 =
      (sampleHandler.BeforeCreate (sampleCreate "u1" "order2" samplePayload)).1 := rfl
  rw [hsame, h2] at h1
  exact absurd h1 (by decide)

/-- C10, amended: `BeforeCreate` stamps the creation time and the creator of the change onto
the payload: after the hook the payload is the initial value with these two fields set,
whatever the initial value held in them. The hook returns no error, and the payload after the
hook does not depend on the order of the change, which goes to the notified model only. -/
theorem BeforeCreate_stamps_creator_and_time (d : ChatHandler) (ch : ChangeOp) :
    (d.BeforeCreate ch).1 =
      (ch.Value.Set createdAtKey (.num ch.Change.Timestamp)).Set creatorKey
        (.str ch.Change.Creator) ∧
    (d.BeforeCreate ch).1.GetString creatorKey = ch.Change.Creator ∧
    (d.BeforeCreate ch).1.GetInt createdAtKey = ch.Change.Timestamp ∧
    (d.BeforeCreate ch).2.1 = none ∧
    ∀ order : String,
      (d.BeforeCreate { ch with Change := { ch.Change with Order := order } }).1 =
        (d.BeforeCreate ch).1 := by
  have hk : creatorKey ≠ createdAtKey := by decide
  refine ⟨rfl, ?_, ?_, rfl, fun _ => rfl⟩
  · simp [ChatHandler.BeforeCreate, newMessageWrapper, messageWrapper.setCreatedAt,
      messageWrapper.setCreator, Doc.GetString, Doc.Get_Set_same]
  · simp [ChatHandler.BeforeCreate, newMessageWrapper, messageWrapper.setCreatedAt,
      messageWrapper.setCreator, Doc.GetInt, Doc.Get_Set_other _ _ _ _ hk, Doc.Get_Set_same]


/-- The model notified by `BeforeCreate` is the model of the initial payload with creator,
creation time and order id replaced. -/
theorem BeforeCreate_model (d : ChatHandler) (ch : ChangeOp) :
    (d.BeforeCreate ch).2.2.events = d.subscription.events ++
      [.add { (newMessageWrapper (some ch.Value)).toModel with
                Creator := ch.Change.Creator
                CreatedAt := ch.Change.Timestamp
                OrderId := ch.Change.Order }] := by
  have h1 : createdAtKey ≠ creatorKey := by decide
  have h2 : creatorKey ≠ "id" := by decide
  have h3 : createdAtKey ≠ "id" := by decide
  have h4 : creatorKey ≠ "replyToMessageId" := by decide
  have h5 : createdAtKey ≠ "replyToMessageId" := by decide
  have h6 : creatorKey ≠ contentKey := by decide
  have h7 : createdAtKey ≠ contentKey := by decide
  have h8 : creatorKey ≠ "attachments" := by decide
  have h9 : createdAtKey ≠ "attachments" := by decide
  have h10 : creatorKey ≠ reactionsKey := by decide
  have h11 : createdAtKey ≠ reactionsKey := by decide
  have h12 : creatorKey ≠ createdAtKey := by decide
  simp [ChatHandler.BeforeCreate, newMessageWrapper, messageWrapper.setCreatedAt,
    messageWrapper.setCreator, messageWrapper.toModel, subscription.add, Doc.GetString,
    Doc.GetInt, Doc.Get_Set_same, Doc.Get_Set_other _ _ _ _ h1, Doc.Get_Set_other _ _ _ _ h2,
    Doc.Get_Set_other _ _ _ _ h3, Doc.Get_Set_other _ _ _ _ h4, Doc.Get_Set_other _ _ _ _ h5,
    Doc.Get_Set_other _ _ _ _ h6, Doc.Get_Set_other _ _ _ _ h7, Doc.Get_Set_other _ _ _ _ h8,
    Doc.Get_Set_other _ _ _ _ h9, Doc.Get_Set_other _ _ _ _ h10,
    Doc.Get_Set_other _ _ _ _ h11, Doc.Get_Set_other _ _ _ _ h12]

/-- C11: for every create change `BeforeCreate` emits exactly one notification, an `add`,
and the model it carries is the model of the payload with `Creator` equal to the creator of
the change, creation time equal to the timestamp of the change and `OrderId` equal to the
order of the change. -/
theorem BeforeCreate_emits_one_added (d : ChatHandler) (ch : ChangeOp) :
    ∃ model : ChatMessage,
      (d.BeforeCreate ch).2.2.events = d.subscription.events ++ [.add model] ∧
      model = { (newMessageWrapper (some ch.Value)).toModel with
                  Creator := ch.Change.Creator
                  CreatedAt := ch.Change.Timestamp
                  OrderId := ch.Change.Order } ∧
      model = { (newMessageWrapper (some (d.BeforeCreate ch).1)).toModel with
                  OrderId := ch.Change.Order } ∧
      model.Creator = ch.Change.Creator ∧
      model.CreatedAt = ch.Change.Timestamp ∧
      model.OrderId = ch.Change.Order := by
  refine ⟨_, BeforeCreate_model d ch, rfl, ?_, rfl, rfl, rfl⟩
  have h := BeforeCreate_model d ch
  have h' : (d.BeforeCreate ch).2.2.events = d.subscription.events ++
      [.add { (newMessageWrapper (some (d.BeforeCreate ch).1)).toModel with
                OrderId := ch.Change.Order }] := rfl
  rw [h'] at h
  have hlist := List.append_cancel_left h
  injection hlist with hhead _
  injection hhead with hmodel
  exact hmodel.symm

/-! ## Key paths and notifications of the upgraded modifier -/

/-- C14, evaluated on the code: the rejection of an empty key path and the rejection of the
unknown key path `title` are plain errors; neither matches the validation error variable,
while the rejection of a content modify by another creator, in the same function, does. -/
theorem UpgradeKeyModifier_bad_key_path_not_validation :
    (sampleHandler.UpgradeKeyModifier (sampleModify "u1" []) ⟨[]⟩
        (setContent "bye") sampleMessage).1.err = some (.errorsNew "no key path") ∧
    errorsIs (.errorsNew "no key path") ErrValidation = false ∧
    (sampleHandler.UpgradeKeyModifier (sampleModify "u1" ["title"]) ⟨["title"]⟩
        (setContent "bye") sampleMessage).1.err =
      some (.errorsNew "invalid key path [title]") ∧
    errorsIs (.errorsNew "invalid key path [title]") ErrValidation = false ∧
    (sampleHandler.UpgradeKeyModifier (sampleModify "u2" [contentKey]) ⟨[contentKey]⟩
        (setContent "bye") sampleMessage).1.err =
      some (.join ErrValidation (.errorsNew "can't modify not own message")) ∧
    errorsIs (.join ErrValidation (.errorsNew "can't modify not own message"))
      ErrValidation = true := by
  decide

/-- C16: for a non-empty key path, known or not, and any creator of the change, when the raw
modifier returns no error and reports no modification, the upgraded modifier returns the
result of the raw modifier with `modified = false` and no error, and the subscription
receives nothing. -/
theorem UpgradeKeyModifier_unmodified_passes (d : ChatHandler) (ch : ChangeOp)
    (key : KeyModify) (mod : Modifier) (v : Doc)
    (hkey : key.KeyPath ≠ [])
    (herr : (mod v).err = none) (hmod : (mod v).modified = false) :
    (d.UpgradeKeyModifier ch key mod v).1 = ⟨(mod v).result, false, none⟩ ∧
    (d.UpgradeKeyModifier ch key mod v).2 = d.subscription := by
  cases hpath : key.KeyPath with
  | nil => exact absurd hpath hkey
  | cons path rest => simp [ChatHandler.UpgradeKeyModifier, hpath, herr, hmod]

theorem UpgradeKeyModifier_unmodified_passes_witness :
    (sampleHandler.UpgradeKeyModifier (sampleModify "u2" [contentKey]) ⟨[contentKey]⟩
        keepDocument sampleMessage).1 = ⟨(keepDocument sampleMessage).result, false, none⟩ ∧
    (sampleHandler.UpgradeKeyModifier (sampleModify "u2" [contentKey]) ⟨[contentKey]⟩
        keepDocument sampleMessage).2 = sampleHandler.subscription :=
  UpgradeKeyModifier_unmodified_passes sampleHandler (sampleModify "u2" [contentKey])
    ⟨[contentKey]⟩ keepDocument sampleMessage (by decide) rfl rfl

/-- One call of the upgraded modifier leaves the subscription as it was or adds one
notification to it; when it returns an error it leaves the subscription as it was. -/
theorem UpgradeKeyModifier_events (d : ChatHandler) (ch : ChangeOp) (key : KeyModify)
    (mod : Modifier) (v : Doc) :
    ((d.UpgradeKeyModifier ch key mod v).2 = d.subscription ∨
      ∃ event, (d.UpgradeKeyModifier ch key mod v).2.events =
        d.subscription.events ++ [event]) ∧
    ((d.UpgradeKeyModifier ch key mod v).1.err = none ∨
      (d.UpgradeKeyModifier ch key mod v).2 = d.subscription) := by
  unfold ChatHandler.UpgradeKeyModifier
  cases key.KeyPath with
  | nil => simp
  | cons path rest =>
    cases herr : (mod v).err with
    | some e => simp [herr]
    | none =>
      cases hmod : (mod v).modified with
      | false => simp [herr, hmod]
      | true =>
        by_cases hr : path = reactionsKey
        · simp [herr, hmod, hr, subscription.updateReactions]
        · by_cases hc : path = contentKey
          · have hcr' : contentKey ≠ reactionsKey := by decide
            by_cases hcr : (newMessageWrapper (mod v).result).toModel.Creator = ch.Change.Creator
            · simp [herr, hmod, hc, hcr', hcr, subscription.updateFull]
            · simp [herr, hmod, hc, hcr', hcr]
          · simp [herr, hmod, hr, hc]

/-- C17: one invocation of the upgraded modifier emits at most one notification, and emits
none when it returns an error: either no error is returned or the subscription is as it was
before the call. -/
theorem UpgradeKeyModifier_at_most_one_notification (d : ChatHandler) (ch : ChangeOp)
    (key : KeyModify) (mod : Modifier) (v : Doc) :
    ((d.UpgradeKeyModifier ch key mod v).2.events = d.subscription.events ∨
      ∃ event, (d.UpgradeKeyModifier ch key mod v).2.events =
        d.subscription.events ++ [event]) ∧
    ((d.UpgradeKeyModifier ch key mod v).1.err = none ∨
      (d.UpgradeKeyModifier ch key mod v).2.events = d.subscription.events) := by
  have h := UpgradeKeyModifier_events d ch key mod v
  refine ⟨?_, ?_⟩
  · rcases h.1 with h1 | h1
    · exact Or.inl (by rw [h1])
    · exact Or.inr h1
  · rcases h.2 with h2 | h2
    · exact Or.inl h2
    · exact Or.inr (by rw [h2])

/-! ## Rejection after earlier hooks of the same set -/

/-- C15: a change set that was applied and committed and is applied again under the same id
yields the same store and the same return value as the first application, and no hook runs
the second time: the subscription stays as the first application left it. -/
theorem ApplyChangeSet_idempotent (d : ChatHandler) (raw : KeyModify → Modifier) (s : Store)
    (set : ChangeSet) (hcommitted : (ApplyChangeSet d raw s set).1 = none) :
    ApplyChangeSet ⟨d.chatId, (ApplyChangeSet d raw s set).2.2⟩ raw
        (ApplyChangeSet d raw s set).2.1 set =
      ((ApplyChangeSet d raw s set).1, (ApplyChangeSet d raw s set).2.1,
        (ApplyChangeSet d raw s set).2.2) := by
  have hmem : set.Id ∈ (ApplyChangeSet d raw s set).2.1.committed := by
    unfold ApplyChangeSet at hcommitted ⊢
    by_cases hid : set.Id ∈ s.committed
    · simp [hid]
    · cases hres : (applyChanges d raw set set.Changes s.coll d.subscription).1 with
      | none => simp [hid, hres]
      | some e => simp [hid, hres] at hcommitted
  rw [hcommitted]
  generalize ApplyChangeSet d raw s set = first at hmem
  simp [ApplyChangeSet, hmem]

theorem ApplyChangeSet_idempotent_witness :
    (ApplyChangeSet sampleHandler sampleRaw sampleStore (sampleCreateSet "u1")).1 = none ∧
    (ApplyChangeSet sampleHandler sampleRaw sampleStore (sampleCreateSet "u1")).2.2.events.length
      = 1 ∧
    ApplyChangeSet
        ⟨sampleHandler.chatId,
          (ApplyChangeSet sampleHandler sampleRaw sampleStore (sampleCreateSet "u1")).2.2⟩
        sampleRaw (ApplyChangeSet sampleHandler sampleRaw sampleStore (sampleCreateSet "u1")).2.1
        (sampleCreateSet "u1") =
      ((ApplyChangeSet sampleHandler sampleRaw sampleStore (sampleCreateSet "u1")).1,
        (ApplyChangeSet sampleHandler sampleRaw sampleStore (sampleCreateSet "u1")).2.1,
        (ApplyChangeSet sampleHandler sampleRaw sampleStore (sampleCreateSet "u1")).2.2) :=
  ⟨by decide, by decide,
   ApplyChangeSet_idempotent sampleHandler sampleRaw sampleStore (sampleCreateSet "u1")
     (by decide)⟩

end chatobject

namespace editor

open chatobject (GoError)

/-- C18: with `S` the ids the object store reports as favorite in the space and `C` the ids of
the dashboard collection, `updateObjects` launches a request with `isFavorite = false` exactly
for the ids in `S` and not in `C`, a request with `isFavorite = true` exactly for the ids in
`C` and not in `S`, and no request for an id in both. The helper `DifferenceRemovedAdded` is
assumed to return the elements of its first argument that are not in the second, and the
elements of the second that are not in the first. -/
theorem updateObjects_requests (p : Dashboard)
    (DifferenceRemovedAdded : List String → List String → List String × List String)
    (S C : List String) (records : List Record)
    (hids : p.GetIds = .ok C) (hquery : p.Query = .ok records)
    (hstore : S = records.map (fun rec => rec.Id))
    (hremoved : ∀ a b x, x ∈ (DifferenceRemovedAdded a b).1 ↔ x ∈ a ∧ x ∉ b)
    (hadded : ∀ a b x, x ∈ (DifferenceRemovedAdded a b).2 ↔ x ∈ b ∧ x ∉ a) :
    (p.updateObjects DifferenceRemovedAdded).1 = none ∧
    ∀ id : String,
      ((⟨id, false⟩ : FavoriteRequest) ∈ (p.updateObjects DifferenceRemovedAdded).2 ↔
        id ∈ S ∧ id ∉ C) ∧
      ((⟨id, true⟩ : FavoriteRequest) ∈ (p.updateObjects DifferenceRemovedAdded).2 ↔
        id ∈ C ∧ id ∉ S) ∧
      (id ∈ S → id ∈ C → ∀ value : Bool,
        (⟨id, value⟩ : FavoriteRequest) ∉ (p.updateObjects DifferenceRemovedAdded).2) := by
  have hreq : (p.updateObjects DifferenceRemovedAdded).2 =
      (DifferenceRemovedAdded S C).1.map (fun id => (⟨id, false⟩ : FavoriteRequest)) ++
        (DifferenceRemovedAdded S C).2.map (fun id => (⟨id, true⟩ : FavoriteRequest)) := by
    simp [Dashboard.updateObjects, hids, hquery, hstore]
  have hfalse : ∀ id : String,
      (⟨id, false⟩ : FavoriteRequest) ∈ (p.updateObjects DifferenceRemovedAdded).2 ↔
        id ∈ S ∧ id ∉ C := by
    intro id
    rw [hreq]
    constructor
    · intro h
      rcases List.mem_append.1 h with h | h
      · obtain ⟨x, hx, hxe⟩ := List.mem_map.1 h
        injection hxe with hid _
        subst hid
        exact (hremoved _ _ _).1 hx
      · obtain ⟨x, _, hxe⟩ := List.mem_map.1 h
        injection hxe with _ hbool
        exact absurd hbool (by decide)
    · intro h
      exact List.mem_append.2 (Or.inl (List.mem_map.2 ⟨id, (hremoved _ _ _).2 h, rfl⟩))
  have htrue : ∀ id : String,
      (⟨id, true⟩ : FavoriteRequest) ∈ (p.updateObjects DifferenceRemovedAdded).2 ↔
        id ∈ C ∧ id ∉ S := by
    intro id
    rw [hreq]
    constructor
    · intro h
      rcases List.mem_append.1 h with h | h
      · obtain ⟨x, _, hxe⟩ := List.mem_map.1 h
        injection hxe with _ hbool
        exact absurd hbool (by decide)
      · obtain ⟨x, hx, hxe⟩ := List.mem_map.1 h
        injection hxe with hid _
        subst hid
        exact (hadded _ _ _).1 hx
    · intro h
      exact List.mem_append.2 (Or.inr (List.mem_map.2 ⟨id, (hadded _ _ _).2 h, rfl⟩))
  refine ⟨by simp [Dashboard.updateObjects, hids, hquery], fun id => ⟨hfalse id, htrue id, ?_⟩⟩
  intro hS hC value
  cases value with
  | false => exact fun h => ((hfalse id).1 h).2 hC
  | true => exact fun h => ((htrue id).1 h).2 hS

theorem sampleDifference_removed (a b : List String) (x : String) :
    x ∈ (sampleDifference a b).1 ↔ x ∈ a ∧ x ∉ b := by
  simp [sampleDifference]

theorem sampleDifference_added (a b : List String) (x : String) :
    x ∈ (sampleDifference a b).2 ↔ x ∈ b ∧ x ∉ a := by
  simp [sampleDifference]

theorem updateObjects_requests_witness :
    (sampleDashboard.updateObjects sampleDifference).2 = [⟨"c", false⟩, ⟨"a", true⟩] ∧
    (sampleDashboard.updateObjects sampleDifference).1 = none ∧
    ∀ id : String,
      ((⟨id, false⟩ : FavoriteRequest) ∈ (sampleDashboard.updateObjects sampleDifference).2 ↔
        id ∈ ["b", "c"] ∧ id ∉ ["a", "b"]) ∧
      ((⟨id, true⟩ : FavoriteRequest) ∈ (sampleDashboard.updateObjects sampleDifference).2 ↔
        id ∈ ["a", "b"] ∧ id ∉ ["b", "c"]) ∧
      (id ∈ ["b", "c"] → id ∈ ["a", "b"] → ∀ value : Bool,
        (⟨id, value⟩ : FavoriteRequest) ∉ (sampleDashboard.updateObjects sampleDifference).2) :=
  ⟨by decide,
   updateObjects_requests sampleDashboard sampleDifference ["b", "c"] ["a", "b"]
     [⟨"b"⟩, ⟨"c"⟩] rfl rfl rfl sampleDifference_removed sampleDifference_added⟩

end editor

namespace accountobject

open chatobject (Doc JVal)

/-- The round trip of the mapper holds for every value of the kind of its key other than the
number zero, numbers being taken between `-2^53` and `2^53`: when `GetStoreKey` returns
`(x, true)`, `GetRelationKey` on a document that holds `x` under the key returns the
value. -/
theorem round_trip_except_zero (r : relationsMapper) (key : String) (kt : KeyType)
    (v : Value) (x : GoAny) (d : Doc)
    (hkey : r.keys.lookup key = some kt) (hkind : v.hasKind kt = true)
    (hzero : v ≠ pbtypesInt64 0)
    (hexact : ∀ n, v = .numberValue n → -9007199254740992 ≤ n ∧ n ≤ 9007199254740992)
    (hstore : r.GetStoreKey key v = (x, true))
    (hdoc : d.Get key = some x.toJSON) :
    r.GetRelationKey key d = (some v, true) := by
  cases kt <;> cases v <;> simp [Value.hasKind] at hkind
  · rename_i str
    by_cases hs : str = ""
    · simp [relationsMapper.GetStoreKey, hkey, Value.GetStringValue, hs] at hstore
    · simp [relationsMapper.GetStoreKey, hkey, Value.GetStringValue, hs] at hstore
      subst hstore
      simp [relationsMapper.GetRelationKey, hkey, Doc.GetStringBytes, hdoc, GoAny.toJSON,
        pbtypesString]
  · rename_i n
    have hn : n ≠ 0 := fun h => hzero (by simp [pbtypesInt64, h])
    obtain ⟨hlow, hhigh⟩ := hexact n rfl
    have hrange : -9223372036854775808 ≤ n ∧ n ≤ 9223372036854775807 := by omega
    simp [relationsMapper.GetStoreKey, hkey, Value.GetNumberValue] at hstore
    subst hstore
    simp [relationsMapper.GetRelationKey, hkey, Doc.GetInt64, hdoc, GoAny.toJSON, hn,
      pbtypesInt64, hrange]
  · rename_i b
    simp [relationsMapper.GetStoreKey, hkey, Value.GetBoolValue] at hstore
    subst hstore
    simp [relationsMapper.GetRelationKey, hkey, Doc.GetBool, hdoc, GoAny.toJSON, pbtypesBool]

/-- C19, evaluated on the code: for the `int64` key `count` and the relation value zero,
`GetStoreKey` returns `(0, true)`, since its test `res == 0` compares an `int64` held in an
`any` with the `int` zero and never holds, and `GetRelationKey` on a document that holds 0
under the key returns `(nil, false)` instead of the value. -/
theorem round_trip_fails_at_zero :
    (pbtypesInt64 0).hasKind .KeyTypeInt64 = true ∧
    sampleMapper.GetStoreKey "count" (pbtypesInt64 0) = (.int64 0, true) ∧
    (Doc.nil.Set "count" (GoAny.int64 0).toJSON).Get "count" = some (GoAny.int64 0).toJSON ∧
    sampleMapper.GetRelationKey "count" (Doc.nil.Set "count" (GoAny.int64 0).toJSON) =
      (none, false) := by
  decide

end accountobject
